import Mathlib

/-!
Shallow embedding of `src/pip.rs` of the sqlite-dist wheel package builder.

The Rust module builds Python wheel archives: a stateful `PipPackage` writer
accumulates zip members and a content manifest (path, sha256 base64url hash,
size), and on `end` synthesizes the four dist-info metadata files
(METADATA, WHEEL, top_level.txt, RECORD) and returns the archive.

Modelling conventions:
- Zip archives (the `zip` crate's `ZipWriter` over an in-memory cursor) are
  modelled as the ordered list of members `(path, bytes)`; bytes are `List Nat`.
- The SHA-256 + base64url-no-padding digest comes from the external `sha2` and
  `base64` crates; it is modelled as an abstract function
  `hashFn : List Nat → String` threaded through the definitions.
- The builder tool's own name and version (`env!("CARGO_PKG_NAME")`,
  `env!("CARGO_PKG_VERSION")`, compile-time constants taken from the project
  manifest, which is outside the translated source) are abstract string
  parameters `cargo_pkg_name`, `cargo_pkg_version`.
- Panicking paths (`todo!()`, `unwrap()`, `assert!`, `expect`) are modelled as
  `Option` with `none` for the panic, per the convention that fallible code
  returns `Option`.
-/

set_option maxRecDepth 100000

namespace SqliteDist

/-- Models Rust `str::as_bytes()`: the UTF-8 bytes of a string, as `List Nat`.
Lean's `Char` list is encoded char-by-char with the standard UTF-8 encoder. -/
def strBytes (s : String) : List Nat :=
  (s.data.map String.utf8EncodeChar).flatten.map (fun b => b.toNat)

/-- Models `package_name.replace('-', "_")` from `PipPackage::new`: every dash
is replaced by an underscore (single-character pattern, so per-char map). -/
def dashToUnderscore (s : String) : String :=
  String.mk (s.data.map (fun c => if c = '-' then '_' else c))

/-- Models Rust `str::split_once(sep)` on the character list of the string:
splits at the first occurrence of `sep`, `none` when `sep` does not occur. -/
def splitOnce (sep : Char) : List Char → Option (List Char × List Char)
  | [] => none
  | c :: cs =>
    if c = sep then some ([], cs)
    else (splitOnce sep cs).map (fun p => (c :: p.1, p.2))

/-- Number of newline characters in a string; a text file of this content has
exactly this many newline-terminated lines. -/
def countNewlines (s : String) : Nat := s.data.count '\n'

/-- Models `semver::Version`: major/minor/patch plus the pre-release and build
metadata identifiers, where the empty string models an absent identifier
(exactly the `is_empty` test the source uses). -/
structure Version where
  major : Nat
  minor : Nat
  patch : Nat
  pre : String
  build : String
deriving DecidableEq

/-- Models `semver::Version::new(major, minor, patch)`: empty pre and build. -/
def Version.new (major minor patch : Nat) : Version :=
  { major := major, minor := minor, patch := patch, pre := "", build := "" }

/-- Models the `Display` rendering `v.to_string()` of a `semver::Version`:
`major.minor.patch`, then `-pre` when a pre-release identifier is present,
then `+build` when build metadata is present. -/
def Version.render (v : Version) : String :=
  Nat.repr v.major ++ "." ++ Nat.repr v.minor ++ "." ++ Nat.repr v.patch
    ++ (if v.pre = "" then "" else "-" ++ v.pre)
    ++ (if v.build = "" then "" else "+" ++ v.build)

/-- Models `semver_to_pip_version` (src/pip.rs:141): match on the presence of
pre-release and build identifiers; `none` models the panicking paths
(`todo!()` for unsupported kinds and for pre+build, `unwrap()` on a
pre-release without a dot). -/
def semver_to_pip_version (v : Version) : Option String :=
  match (if v.pre = "" then none else some v.pre),
        (if v.build = "" then none else some v.build) with
  | none, none => some v.render
  | none, some _build => some v.render
  | some pre, none =>
    let base := (Version.new v.major v.minor v.patch).render
    match splitOnce '.' pre.data with
    | none => none
    | some (a, b) =>
      let b := String.mk b
      if String.mk a = "alpha" then some (base ++ "a" ++ b)
      else if String.mk a = "beta" then some (base ++ "b" ++ b)
      else if String.mk a = "rc" then some (base ++ "rc" ++ b)
      else none
  | some _pre, some _build => none

/-- Models the crate's `Os` enum (variants used in `platform_target_tag`). -/
inductive Os where
  | Macos
  | Linux
  | Windows
deriving DecidableEq

/-- Models the crate's `Cpu` enum (variants used in `platform_target_tag`). -/
inductive Cpu where
  | X86_64
  | Aarch64
deriving DecidableEq

/-- Models `platform_target_tag` (src/pip.rs:167): the fixed (OS, CPU) → tag
lookup table; `none` models the `todo!()` panic on Windows/Aarch64. -/
def platform_target_tag (os : Os) (cpu : Cpu) : Option String :=
  match os, cpu with
  | Os.Macos, Cpu.X86_64 => some "macosx_10_6_x86_64"
  | Os.Macos, Cpu.Aarch64 => some "macosx_11_0_arm64"
  | Os.Linux, Cpu.X86_64 =>
    some "manylinux_2_17_x86_64.manylinux2014_x86_64.manylinux1_x86_64"
  | Os.Linux, Cpu.Aarch64 => some "manylinux_2_17_aarch64.manylinux2014_aarch64.whl"
  | Os.Windows, Cpu.X86_64 => some "win_amd64"
  | Os.Windows, Cpu.Aarch64 => none

/-- Models the platform match repeated verbatim in `PipPackage::wheel_name` and
`templates::dist_info_wheel`: a concrete platform goes through the lookup
table, `None` means platform-independent and yields the literal tag any. -/
def resolve_platform_tag : Option (Os × Cpu) → Option String
  | some (os, cpu) => platform_target_tag os cpu
  | none => some "any"

variable (hashFn : List Nat → String) (cargo_pkg_name cargo_pkg_version : String)

/-- Models `PipPackageFile`: one manifest entry (archive path, content hash,
byte length). -/
structure PipPackageFile where
  path : String
  hash : String
  size : Nat
deriving DecidableEq

/-- Models `PipPackageFile::new` (src/pip.rs:131): the hash is
`URL_SAFE_NO_PAD.encode(Sha256::digest(data))`, modelled by the abstract
`hashFn`; the size is `data.len()`. -/
def PipPackageFile.new (path : String) (data : List Nat) : PipPackageFile :=
  { path := path, hash := hashFn data, size := data.length }

/-- Models `PipPackage` (src/pip.rs:180): the in-memory zip writer (member
list), the distribution name, the underscored import name, the pip version
string computed at construction, and the manifest of written files. -/
structure PipPackage where
  zipfile : List (String × List Nat)
  package_name : String
  python_package_name : String
  package_version : String
  written_files : List PipPackageFile
deriving DecidableEq

/-- Models `PipPackage::new` (src/pip.rs:193): fresh writer, dashes replaced
with underscores for the import name, version normalized once; `none` when
`semver_to_pip_version` panics. -/
def PipPackage.new (package_name : String) (package_version : Version) :
    Option PipPackage :=
  (semver_to_pip_version package_version).map (fun pv =>
    { zipfile := []
      package_name := package_name
      python_package_name := dashToUnderscore package_name
      package_version := pv
      written_files := [] })

/-- Models `PipPackage::wheel_name` (src/pip.rs:206):
name-version-py3-none-tag.whl; `none` when the platform tag lookup panics. -/
def PipPackage.wheel_name (self : PipPackage) (platform : Option (Os × Cpu)) :
    Option String :=
  let python_tag := "py3"
  let abi_tag := "none"
  (resolve_platform_tag platform).map (fun platform_tag =>
    self.python_package_name ++ "-" ++ self.package_version ++ "-" ++ python_tag
      ++ "-" ++ abi_tag ++ "-" ++ platform_tag ++ ".whl")

/-- Models `PipPackage::write_file` (src/pip.rs:218): start a stored (not
compressed) zip member, write the bytes, and push the manifest entry. -/
def PipPackage.write_file (self : PipPackage) (path : String) (data : List Nat) :
    PipPackage :=
  { self with
      zipfile := self.zipfile ++ [(path, data)]
      written_files := self.written_files ++ [PipPackageFile.new hashFn path data] }

/-- Models `PipPackage::write_library_file` (src/pip.rs:226): the payload path
is prefixed with the import-name directory. -/
def PipPackage.write_library_file (self : PipPackage) (path : String)
    (data : List Nat) : PipPackage :=
  self.write_file hashFn (self.python_package_name ++ "/" ++ path) data

/-- Models `PipPackage::dist_info_file` (src/pip.rs:233): a path inside the
name-version.dist-info directory. -/
def PipPackage.dist_info_file (self : PipPackage) (file : String) : String :=
  self.python_package_name ++ "-" ++ self.package_version ++ ".dist-info/" ++ file

namespace templates

/-- Models `templates::dist_info_metadata` (src/pip.rs:17). -/
def dist_info_metadata (pkg : PipPackage) : String :=
  "Metadata-Version: 2.1\nName: " ++ pkg.package_name ++ "\nVersion: "
    ++ pkg.package_version
    ++ "\nHome-page: https://TODO.com\nAuthor: TODO\nLicense: MIT License, Apache License, Version 2.0\nDescription-Content-Type: text/markdown\n\nTODO readme"

/-- Models `templates::dist_info_wheel` (src/pip.rs:33): interpolates the
builder tool's name/version and the resolved platform tag; `none` when the
tag lookup panics. -/
def dist_info_wheel (platform : Option (Os × Cpu)) : Option String :=
  (resolve_platform_tag platform).map (fun platform_tag =>
    let tag := "py3-none-" ++ platform_tag
    "Wheel-Version: 1.0\nGenerator: " ++ cargo_pkg_name ++ " " ++ cargo_pkg_version
      ++ "\nRoot-Is-Purelib: false\nTag: " ++ tag)

/-- Models `templates::dist_info_top_level_txt` (src/pip.rs:48). -/
def dist_info_top_level_txt (pkg : PipPackage) : String :=
  pkg.python_package_name ++ "\n"

/-- The record accumulation loop of `templates::dist_info_record`
(src/pip.rs:54): one line path,sha256=hash,size per manifest entry,
in manifest order. -/
def dist_info_record_lines : List PipPackageFile → String
  | [] => ""
  | file :: rest =>
    file.path ++ ",sha256=" ++ file.hash ++ "," ++ Nat.repr file.size ++ "\n"
      ++ dist_info_record_lines rest

/-- Models `templates::dist_info_record` (src/pip.rs:52): the per-entry lines
followed by the self-referential line with empty hash and size fields. -/
def dist_info_record (pkg : PipPackage) (record_path : String) : String :=
  dist_info_record_lines pkg.written_files ++ record_path ++ ",,\n"

/-- Models `templates::base_init_py` (src/pip.rs:63). -/
def base_init_py (pkg : PipPackage) (entrypoint : String) : String :=
  "\nimport os\nimport sqlite3\n\n__version__ = \"" ++ pkg.package_version
    ++ "\"\n__version_info__ = tuple(__version__.split(\".\"))\n\ndef loadable_path():\n  loadable_path = os.path.join(os.path.dirname(__file__), \""
    ++ entrypoint
    ++ "\")\n  return os.path.normpath(loadable_path)\n\ndef load(conn: sqlite3.Connection)  -> None:\n  conn.load_extension(loadable_path())\n"

/-- Models `templates::sqlite_utils_init_py` (src/pip.rs:83): note the source
uses the package's own `python_package_name` as the imported module. -/
def sqlite_utils_init_py (pkg : PipPackage) : String :=
  let dep_library := pkg.python_package_name
  "\nfrom sqlite_utils import hookimpl\nimport " ++ dep_library
    ++ "\n\n__version__ = \"" ++ pkg.package_version
    ++ "\"\n__version_info__ = tuple(__version__.split(\".\"))\n\n@hookimpl\ndef prepare_connection(conn):\n  conn.enable_load_extension(True)\n  "
    ++ dep_library
    ++ ".load(conn)\n  conn.enable_load_extension(False)\n"

/-- Models `templates::datasette_init_py` (src/pip.rs:103): note the source
uses the package's own `python_package_name` as the imported module. -/
def datasette_init_py (pkg : PipPackage) : String :=
  let dep_library := pkg.python_package_name
  "\nfrom datasette import hookimpl\nimport " ++ dep_library
    ++ "\n\n__version__ = \"" ++ pkg.package_version
    ++ "\"\n__version_info__ = tuple(__version__.split(\".\"))\n\n@hookimpl\ndef prepare_connection(conn):\n  conn.enable_load_extension(True)\n  "
    ++ dep_library
    ++ ".load(conn)\n  conn.enable_load_extension(False)\n"

end templates

/-- Models `PipPackage::write_dist_info_metadata` (src/pip.rs:240). -/
def PipPackage.write_dist_info_metadata (self : PipPackage) : PipPackage :=
  self.write_file hashFn (self.dist_info_file "METADATA")
    (strBytes (templates.dist_info_metadata self))

/-- Models `PipPackage::write_dist_info_wheel` (src/pip.rs:260). -/
def PipPackage.write_dist_info_wheel (self : PipPackage)
    (platform : Option (Os × Cpu)) : Option PipPackage :=
  (templates.dist_info_wheel cargo_pkg_name cargo_pkg_version platform).map
    (fun content =>
      self.write_file hashFn (self.dist_info_file "WHEEL") (strBytes content))

/-- Models `PipPackage::write_dist_info_top_level_txt` (src/pip.rs:254). -/
def PipPackage.write_dist_info_top_level_txt (self : PipPackage) : PipPackage :=
  self.write_file hashFn (self.dist_info_file "top_level.txt")
    (strBytes (templates.dist_info_top_level_txt self))

/-- Models `PipPackage::write_dist_info_record` (src/pip.rs:247): the RECORD
content is generated from the manifest as it stands, then written through
`write_file` (which appends RECORD's own manifest entry). -/
def PipPackage.write_dist_info_record (self : PipPackage) : PipPackage :=
  let record_path := self.dist_info_file "RECORD"
  self.write_file hashFn record_path
    (strBytes (templates.dist_info_record self record_path))

/-- The builder state reached at the end of `PipPackage::end` (src/pip.rs:267),
just before `zipfile.finish()`: METADATA, WHEEL, top_level.txt, RECORD written
in that order; `none` when the WHEEL platform tag lookup panics. -/
def PipPackage.endState (self : PipPackage) (platform : Option (Os × Cpu)) :
    Option PipPackage :=
  ((self.write_dist_info_metadata hashFn).write_dist_info_wheel hashFn
      cargo_pkg_name cargo_pkg_version platform).map
    (fun p => (p.write_dist_info_top_level_txt hashFn).write_dist_info_record hashFn)

/-- Models `PipPackage::end` (src/pip.rs:267): write the four dist-info files
and finish the archive, returning its members. (Named `finalize` because `end`
is reserved in Lean.) -/
def PipPackage.finalize (self : PipPackage) (platform : Option (Os × Cpu)) :
    Option (List (String × List Nat)) :=
  (self.endState hashFn cargo_pkg_name cargo_pkg_version platform).map
    PipPackage.zipfile

/-- Models the `package` table of the crate's `Spec` as used here: a name and
a semantic version. -/
structure SpecPackage where
  name : String
  version : Version
deriving DecidableEq

/-- Models the crate's `Spec` as used by the assemblers. -/
structure Spec where
  package : SpecPackage
deriving DecidableEq

/-- Models the named file inside a `LoadableFile` (fields `name`, `data`). -/
structure NamedFile where
  name : String
  data : List Nat
deriving DecidableEq

/-- Models a loadable (platform-specific shared library) file entry: the file
stem used as entrypoint plus the named file contents. -/
structure LoadableFile where
  file_stem : String
  file : NamedFile
deriving DecidableEq

/-- Models `PlatformDirectory`: one target platform and its loadable files. -/
structure PlatformDirectory where
  os : Os
  cpu : Cpu
  loadable_files : List LoadableFile
deriving DecidableEq

/-- Models `GeneratedAssetKind` (variants used in src/pip.rs). -/
inductive GeneratedAssetKind where
  | Pip : Os × Cpu → GeneratedAssetKind
  | Datasette
  | SqliteUtils
deriving DecidableEq

/-- Models `GeneratedAsset`: the asset kind, its destination path, and the
produced archive bytes (member list). -/
structure GeneratedAsset where
  kind : GeneratedAssetKind
  path : String
  data : List (String × List Nat)
deriving DecidableEq

/-- Models `GeneratedAsset::from(kind, path, bytes)`: records the produced
wheel (the actual disk write is the external sink). -/
def GeneratedAsset.make (kind : GeneratedAssetKind) (path : String)
    (data : List (String × List Nat)) : GeneratedAsset :=
  { kind := kind, path := path, data := data }

/-- Models `write_base_packages` (src/pip.rs:286): one wheel per platform
directory; `none` models the panics (`assert!` / `expect` on an empty
loadable-file list, version or tag panics). Paths are joined with a slash. -/
def write_base_packages (pip_path : String)
    (platform_dirs : List PlatformDirectory) (spec : Spec) :
    Option (List GeneratedAsset) :=
  match platform_dirs with
  | [] => some []
  | platform_dir :: rest =>
    (PipPackage.new spec.package.name spec.package.version).bind (fun pkg =>
      (platform_dir.loadable_files.head?).bind (fun first =>
        let entrypoint := first.file_stem
        let pkg := pkg.write_library_file hashFn "__init__.py"
          (strBytes (templates.base_init_py pkg entrypoint))
        let pkg := platform_dir.loadable_files.foldl
          (fun p f => p.write_library_file hashFn f.file.name f.file.data) pkg
        let platform := some (platform_dir.os, platform_dir.cpu)
        (pkg.wheel_name platform).bind (fun wheel_name =>
          (pkg.finalize hashFn cargo_pkg_name cargo_pkg_version platform).bind
            (fun result =>
              (write_base_packages pip_path rest spec).map (fun assets =>
                GeneratedAsset.make
                  (GeneratedAssetKind.Pip (platform_dir.os, platform_dir.cpu))
                  (pip_path ++ "/" ++ wheel_name) result :: assets)))))

/-- Models `write_datasette` (src/pip.rs:317): the wrapper package named
datasette-{name}, one generated __init__.py, finalized with platform None. -/
def write_datasette (datasette_path : String) (spec : Spec) :
    Option GeneratedAsset :=
  let datasette_package_name := "datasette-" ++ spec.package.name
  (PipPackage.new datasette_package_name spec.package.version).bind (fun pkg =>
    let pkg := pkg.write_library_file hashFn "__init__.py"
      (strBytes (templates.datasette_init_py pkg))
    (pkg.wheel_name none).bind (fun wheel_name =>
      (pkg.finalize hashFn cargo_pkg_name cargo_pkg_version none).map
        (fun result =>
          GeneratedAsset.make GeneratedAssetKind.Datasette
            (datasette_path ++ "/" ++ wheel_name) result)))

/-- Models `write_sqlite_utils` (src/pip.rs:334): the wrapper package named
sqlite-utils-{name}, one generated __init__.py, finalized with platform
None. -/
def write_sqlite_utils (sqlite_utils_path : String) (spec : Spec) :
    Option GeneratedAsset :=
  let sqlite_utils_name := "sqlite-utils-" ++ spec.package.name
  (PipPackage.new sqlite_utils_name spec.package.version).bind (fun pkg =>
    let pkg := pkg.write_library_file hashFn "__init__.py"
      (strBytes (templates.sqlite_utils_init_py pkg))
    (pkg.wheel_name none).bind (fun wheel_name =>
      (pkg.finalize hashFn cargo_pkg_name cargo_pkg_version none).map
        (fun result =>
          GeneratedAsset.make GeneratedAssetKind.SqliteUtils
            (sqlite_utils_path ++ "/" ++ wheel_name) result)))

/-- Writes a list of payload files through `PipPackage::write_file` in order;
used to state properties about a builder with N payload files written. -/
def write_payloads (pkg : PipPackage) (payloads : List (String × List Nat)) :
    PipPackage :=
  payloads.foldl (fun p pd => p.write_file hashFn pd.1 pd.2) pkg


/-- The manifest entry finalization appends for the METADATA file. -/
def metadataEntry (pkg : PipPackage) : PipPackageFile :=
  PipPackageFile.new hashFn (pkg.dist_info_file "METADATA")
    (strBytes (templates.dist_info_metadata pkg))

/-- The WHEEL metadata file content for a resolved platform tag. -/
def wheelFileContent (tag : String) : String :=
  "Wheel-Version: 1.0\nGenerator: " ++ cargo_pkg_name ++ " " ++ cargo_pkg_version
    ++ "\nRoot-Is-Purelib: false\nTag: " ++ ("py3-none-" ++ tag)

/-- The manifest entry finalization appends for the WHEEL file. -/
def wheelEntry (pkg : PipPackage) (tag : String) : PipPackageFile :=
  PipPackageFile.new hashFn (pkg.dist_info_file "WHEEL")
    (strBytes (wheelFileContent cargo_pkg_name cargo_pkg_version tag))

/-- The manifest entry finalization appends for the top_level.txt file. -/
def topLevelEntry (pkg : PipPackage) : PipPackageFile :=
  PipPackageFile.new hashFn (pkg.dist_info_file "top_level.txt")
    (strBytes (pkg.python_package_name ++ "\n"))

/-- The RECORD file content produced when finalizing the builder state `pkg`
with resolved platform tag `tag`: one line per manifest entry (the payloads
written so far plus the three metadata files just appended), then the
self-referential line with empty hash and size fields. -/
def recordFileContent (pkg : PipPackage) (tag : String) : String :=
  templates.dist_info_record_lines
      (pkg.written_files ++ [metadataEntry hashFn pkg,
        wheelEntry hashFn cargo_pkg_name cargo_pkg_version pkg tag,
        topLevelEntry hashFn pkg])
    ++ pkg.dist_info_file "RECORD" ++ ",,\n"

/-- The manifest entry `write_file` appends for the RECORD file itself. -/
def recordEntry (pkg : PipPackage) (tag : String) : PipPackageFile :=
  PipPackageFile.new hashFn (pkg.dist_info_file "RECORD")
    (strBytes (recordFileContent hashFn cargo_pkg_name cargo_pkg_version pkg tag))


/-! Auxiliary lemmas about strings, split_once and decimal rendering. -/

lemma strExt {s t : String} (h : s.data = t.data) : s = t := by
  cases s; cases t
  exact congrArg String.mk (by simpa using h)

lemma str_append_cancel_left (x : String) {a b : String} (h : x ++ a = x ++ b) :
    a = b := by
  apply strExt
  have hd := congrArg String.data h
  rw [String.data_append, String.data_append] at hd
  exact List.append_cancel_left hd

lemma splitOnce_eq_none_iff (sep : Char) (l : List Char) :
    splitOnce sep l = none ↔ sep ∉ l := by
  induction l with
  | nil => simp [splitOnce]
  | cons c cs ih =>
    by_cases hc : c = sep
    · subst hc; simp [splitOnce]
    · rw [splitOnce, if_neg hc, Option.map_eq_none', ih]
      simp [List.mem_cons, Ne.symm hc]

lemma splitOnce_eq_some (sep : Char) (l l1 l2 : List Char)
    (h : splitOnce sep l = some (l1, l2)) : l = l1 ++ sep :: l2 ∧ sep ∉ l1 := by
  induction l generalizing l1 l2 with
  | nil => simp [splitOnce] at h
  | cons c cs ih =>
    by_cases hc : c = sep
    · subst hc
      simp only [splitOnce, if_pos rfl, Option.some.injEq, Prod.mk.injEq] at h
      obtain ⟨rfl, rfl⟩ := h
      simp
    · rw [splitOnce, if_neg hc] at h
      cases hsp : splitOnce sep cs with
      | none => rw [hsp] at h; simp at h
      | some p =>
        rw [hsp] at h
        simp only [Option.map_some', Option.some.injEq, Prod.mk.injEq] at h
        obtain ⟨h1, h2⟩ := h
        obtain ⟨hcs, hmem⟩ := ih p.1 p.2 (by rw [hsp])
        subst h1; subst h2
        constructor
        · simp [hcs]
        · simp [List.mem_cons, hmem, Ne.symm hc]

lemma splitOnce_append (sep : Char) (l1 l2 : List Char) (h : sep ∉ l1) :
    splitOnce sep (l1 ++ sep :: l2) = some (l1, l2) := by
  induction l1 with
  | nil => simp [splitOnce]
  | cons c cs ih =>
    simp only [List.mem_cons, not_or] at h
    rw [List.cons_append, splitOnce, if_neg (fun hc => h.1 hc.symm), ih h.2]
    rfl

lemma split_at_char_unique {sep : Char} {l1 r1 l2 r2 : List Char}
    (h : l1 ++ sep :: r1 = l2 ++ sep :: r2) (h1 : sep ∉ l1) (h2 : sep ∉ l2) :
    l1 = l2 ∧ r1 = r2 := by
  have e1 := splitOnce_append sep l1 r1 h1
  rw [h, splitOnce_append sep l2 r2 h2] at e1
  simpa [Prod.ext_iff] using e1.symm

lemma digitChar_ne_newline (n : Nat) : Nat.digitChar n ≠ '\n' := by
  rcases Nat.lt_or_ge n 16 with h | h
  · interval_cases n <;> decide
  · unfold Nat.digitChar
    repeat rw [if_neg (by omega)]
    decide

lemma toDigitsCore_ne_newline (b : Nat) (fuel : Nat) :
    ∀ (n : Nat) (ds : List Char), (∀ c ∈ ds, c ≠ '\n') →
      ∀ c ∈ Nat.toDigitsCore b fuel n ds, c ≠ '\n' := by
  induction fuel with
  | zero => intro n ds h; simpa [Nat.toDigitsCore] using h
  | succ f ih =>
    intro n ds h
    rw [Nat.toDigitsCore]
    split
    · intro c hc
      rcases List.mem_cons.mp hc with rfl | hmem
      · exact digitChar_ne_newline _
      · exact h c hmem
    · refine ih _ _ ?_
      intro c hc
      rcases List.mem_cons.mp hc with rfl | hmem
      · exact digitChar_ne_newline _
      · exact h c hmem

lemma repr_no_newline (n : Nat) : '\n' ∉ (Nat.repr n).data := by
  intro hmem
  exact toDigitsCore_ne_newline 10 (n + 1) n [] (by simp) '\n'
    (by simpa [Nat.repr, Nat.toDigits, List.asString] using hmem) rfl


/-! Lemmas about the builder state. -/

lemma write_file_package_name (self : PipPackage) (p : String) (d : List Nat) :
    (self.write_file hashFn p d).package_name = self.package_name := rfl

lemma write_file_python_package_name (self : PipPackage) (p : String)
    (d : List Nat) :
    (self.write_file hashFn p d).python_package_name = self.python_package_name :=
  rfl

lemma write_file_package_version (self : PipPackage) (p : String) (d : List Nat) :
    (self.write_file hashFn p d).package_version = self.package_version := rfl

lemma write_file_dist_info_file (self : PipPackage) (p f : String)
    (d : List Nat) :
    (self.write_file hashFn p d).dist_info_file f = self.dist_info_file f := rfl

lemma write_payloads_cons (pkg : PipPackage) (pd : String × List Nat)
    (ps : List (String × List Nat)) :
    write_payloads hashFn pkg (pd :: ps) =
      write_payloads hashFn (pkg.write_file hashFn pd.1 pd.2) ps := rfl

lemma write_payloads_python_package_name (pkg : PipPackage)
    (ps : List (String × List Nat)) :
    (write_payloads hashFn pkg ps).python_package_name =
      pkg.python_package_name := by
  induction ps generalizing pkg with
  | nil => rfl
  | cons pd ps ih => rw [write_payloads_cons, ih, write_file_python_package_name]

lemma write_payloads_package_name (pkg : PipPackage)
    (ps : List (String × List Nat)) :
    (write_payloads hashFn pkg ps).package_name = pkg.package_name := by
  induction ps generalizing pkg with
  | nil => rfl
  | cons pd ps ih => rw [write_payloads_cons, ih, write_file_package_name]

lemma write_payloads_package_version (pkg : PipPackage)
    (ps : List (String × List Nat)) :
    (write_payloads hashFn pkg ps).package_version = pkg.package_version := by
  induction ps generalizing pkg with
  | nil => rfl
  | cons pd ps ih => rw [write_payloads_cons, ih, write_file_package_version]

lemma write_payloads_dist_info_file (pkg : PipPackage)
    (ps : List (String × List Nat)) (f : String) :
    (write_payloads hashFn pkg ps).dist_info_file f = pkg.dist_info_file f := by
  rw [PipPackage.dist_info_file, PipPackage.dist_info_file,
    write_payloads_python_package_name, write_payloads_package_version]

lemma write_payloads_written_files (pkg : PipPackage)
    (ps : List (String × List Nat)) :
    (write_payloads hashFn pkg ps).written_files =
      pkg.written_files ++ ps.map (fun pd => PipPackageFile.new hashFn pd.1 pd.2) := by
  induction ps generalizing pkg with
  | nil => simp [write_payloads]
  | cons pd ps ih =>
    rw [write_payloads_cons, ih]
    simp [PipPackage.write_file, List.append_assoc]

lemma endState_eq (pkg : PipPackage) (platform : Option (Os × Cpu)) (tag : String)
    (h : resolve_platform_tag platform = some tag) :
    pkg.endState hashFn cargo_pkg_name cargo_pkg_version platform = some
      { zipfile := pkg.zipfile ++
          [(pkg.dist_info_file "METADATA",
             strBytes (templates.dist_info_metadata pkg)),
           (pkg.dist_info_file "WHEEL",
             strBytes (wheelFileContent cargo_pkg_name cargo_pkg_version tag)),
           (pkg.dist_info_file "top_level.txt",
             strBytes (pkg.python_package_name ++ "\n")),
           (pkg.dist_info_file "RECORD",
             strBytes (recordFileContent hashFn cargo_pkg_name cargo_pkg_version
               pkg tag))],
        package_name := pkg.package_name,
        python_package_name := pkg.python_package_name,
        package_version := pkg.package_version,
        written_files := pkg.written_files ++
          [metadataEntry hashFn pkg,
           wheelEntry hashFn cargo_pkg_name cargo_pkg_version pkg tag,
           topLevelEntry hashFn pkg,
           recordEntry hashFn cargo_pkg_name cargo_pkg_version pkg tag] } := by
  simp only [PipPackage.endState, PipPackage.write_dist_info_wheel,
    templates.dist_info_wheel, h, Option.map_some']
  simp [PipPackage.write_dist_info_metadata, PipPackage.write_dist_info_top_level_txt,
    PipPackage.write_dist_info_record, PipPackage.write_file,
    PipPackage.dist_info_file, templates.dist_info_record,
    templates.dist_info_top_level_txt, metadataEntry, wheelEntry, topLevelEntry,
    recordEntry, recordFileContent, wheelFileContent, List.append_assoc]

lemma finalize_eq (pkg : PipPackage) (platform : Option (Os × Cpu)) (tag : String)
    (h : resolve_platform_tag platform = some tag) :
    pkg.finalize hashFn cargo_pkg_name cargo_pkg_version platform = some
      (pkg.zipfile ++
        [(pkg.dist_info_file "METADATA",
           strBytes (templates.dist_info_metadata pkg)),
         (pkg.dist_info_file "WHEEL",
           strBytes (wheelFileContent cargo_pkg_name cargo_pkg_version tag)),
         (pkg.dist_info_file "top_level.txt",
           strBytes (pkg.python_package_name ++ "\n")),
         (pkg.dist_info_file "RECORD",
           strBytes (recordFileContent hashFn cargo_pkg_name cargo_pkg_version
             pkg tag))]) := by
  rw [PipPackage.finalize, endState_eq hashFn cargo_pkg_name cargo_pkg_version
    pkg platform tag h]
  rfl


/-! Helper lemmas shared by the claim theorems. -/

lemma option_bind_fun_none {α β : Type} (o : Option α) :
    (o.bind fun _ => (none : Option β)) = none := by cases o <;> rfl

lemma wheel_name_spec (pkg : PipPackage) (platform : Option (Os × Cpu))
    (tag : String) (h : resolve_platform_tag platform = some tag) :
    pkg.wheel_name platform =
      some (pkg.python_package_name ++ "-" ++ pkg.package_version ++
        "-py3-none-" ++ tag ++ ".whl") := by
  rw [PipPackage.wheel_name, h, Option.map_some']
  refine congrArg some (strExt ?_)
  simp [String.data_append, List.append_assoc]

lemma dist_info_file_length (pkg : PipPackage) (a : String) :
    (pkg.dist_info_file a).length =
      pkg.python_package_name.length + 1 + pkg.package_version.length + 11 +
        a.length := by
  rw [PipPackage.dist_info_file]
  simp only [String.length_append]
  have h1 : ("-" : String).length = 1 := rfl
  have h2 : (".dist-info/" : String).length = 11 := rfl
  rw [h1, h2]

lemma dist_info_file_ne_of_length (pkg : PipPackage) {a b : String}
    (hab : a.length ≠ b.length) :
    pkg.dist_info_file a ≠ pkg.dist_info_file b := by
  intro he
  have hl := congrArg String.length he
  rw [dist_info_file_length, dist_info_file_length] at hl
  omega

lemma countNewlines_append (s t : String) :
    countNewlines (s ++ t) = countNewlines s + countNewlines t := by
  rw [countNewlines, countNewlines, countNewlines, String.data_append,
    List.count_append]

lemma countNewlines_eq_zero {s : String} (h : '\n' ∉ s.data) :
    countNewlines s = 0 := List.count_eq_zero.mpr h

lemma countNewlines_record_lines (fs : List PipPackageFile)
    (h : ∀ f ∈ fs, '\n' ∉ f.path.data ∧ '\n' ∉ f.hash.data) :
    countNewlines (templates.dist_info_record_lines fs) = fs.length := by
  induction fs with
  | nil => decide
  | cons f fs ih =>
    rw [templates.dist_info_record_lines]
    simp only [countNewlines_append]
    rw [countNewlines_eq_zero (h f (List.mem_cons_self f fs)).1,
      countNewlines_eq_zero (h f (List.mem_cons_self f fs)).2,
      countNewlines_eq_zero (repr_no_newline f.size),
      ih (fun g hg => h g (List.mem_cons_of_mem f hg))]
    have h1 : countNewlines ",sha256=" = 0 := rfl
    have h2 : countNewlines "," = 0 := rfl
    have h3 : countNewlines "\n" = 1 := rfl
    rw [h1, h2, h3, List.length_cons]
    omega

lemma dist_info_file_no_newline (pkg : PipPackage) (f : String)
    (hpy : '\n' ∉ pkg.python_package_name.data)
    (hver : '\n' ∉ pkg.package_version.data) (hf : '\n' ∉ f.data) :
    '\n' ∉ (pkg.dist_info_file f).data := by
  have hz : countNewlines (pkg.dist_info_file f) = 0 := by
    rw [PipPackage.dist_info_file]
    simp only [countNewlines_append]
    rw [countNewlines_eq_zero hpy, countNewlines_eq_zero hver,
      countNewlines_eq_zero hf]
    decide
  exact List.count_eq_zero.mp hz

/-! Claim theorems. -/

/-- C3: evaluation of the platform-tag table. Four of the six (OS, CPU) pairs
return exactly the tag the specification lists and Windows/ARM64 fails (the
todo panic, modelled as none), but Linux/ARM64 returns the listed tag with a
stray ".whl" suffix appended, contradicting the claim; the spec's table is
plainly the intent (a platform tag never carries a file extension, and
wheel_name appends ".whl" after the tag, so this wheel is named
"....whl.whl"), so this is a code bug. -/
theorem c3_platform_tag_table :
    platform_target_tag Os.Macos Cpu.X86_64 = some "macosx_10_6_x86_64" ∧
    platform_target_tag Os.Macos Cpu.Aarch64 = some "macosx_11_0_arm64" ∧
    platform_target_tag Os.Linux Cpu.X86_64 =
      some "manylinux_2_17_x86_64.manylinux2014_x86_64.manylinux1_x86_64" ∧
    platform_target_tag Os.Linux Cpu.Aarch64 =
      some "manylinux_2_17_aarch64.manylinux2014_aarch64.whl" ∧
    platform_target_tag Os.Linux Cpu.Aarch64 ≠
      some "manylinux_2_17_aarch64.manylinux2014_aarch64" ∧
    platform_target_tag Os.Windows Cpu.X86_64 = some "win_amd64" ∧
    platform_target_tag Os.Windows Cpu.Aarch64 = none := by
  refine ⟨rfl, rfl, rfl, rfl, ?_, rfl, rfl⟩
  decide

/-- C4, counterexample: for version 1.2.3+build5 (build metadata, no
pre-release) normalization returns "1.2.3+build5" — the full semver rendering
with the build metadata retained — not the plain "1.2.3" the claim states. -/
theorem c4_build_metadata_counterexample :
    semver_to_pip_version ⟨1, 2, 3, "", "build5"⟩ = some "1.2.3+build5" ∧
    some "1.2.3+build5" ≠ some ("1.2.3" : String) := by
  exact ⟨by decide, by decide⟩

/-- C4, amended: for every version with build metadata and no pre-release,
normalization returns the full semver rendering
"major.minor.patch+build" (build metadata retained, not dropped). -/
theorem c4_build_metadata_retained (M m p : Nat) (build : String)
    (h : build ≠ "") :
    semver_to_pip_version ⟨M, m, p, "", build⟩ =
      some (Nat.repr M ++ "." ++ Nat.repr m ++ "." ++ Nat.repr p ++ "+" ++ build) ∧
    Nat.repr M ++ "." ++ Nat.repr m ++ "." ++ Nat.repr p ++ "+" ++ build ≠
      Nat.repr M ++ "." ++ Nat.repr m ++ "." ++ Nat.repr p := by
  constructor
  · rw [semver_to_pip_version]
    simp only [if_neg h, reduceIte]
    refine congrArg some (strExt ?_)
    simp [Version.render, String.data_append, h]
  · intro heq
    have hlen := congrArg String.length heq
    simp only [String.length_append] at hlen
    have hb : build.length ≠ 0 := by
      intro h0
      exact h (strExt (List.length_eq_zero.mp h0))
    omega

/-- C4, witness for the amended theorem at version 1.2.3+b9. -/
theorem c4_build_metadata_retained_witness :
    semver_to_pip_version ⟨1, 2, 3, "", "b9"⟩ =
      some (Nat.repr 1 ++ "." ++ Nat.repr 2 ++ "." ++ Nat.repr 3 ++ "+" ++ "b9") ∧
    Nat.repr 1 ++ "." ++ Nat.repr 2 ++ "." ++ Nat.repr 3 ++ "+" ++ "b9" ≠
      Nat.repr 1 ++ "." ++ Nat.repr 2 ++ "." ++ Nat.repr 3 :=
  c4_build_metadata_retained 1 2 3 "b9" (by decide)


/-- C7: the wheel filename is exactly the string
"{import_name}-{version}-py3-none-{platform_tag}.whl", with the literal tag "any"
for a platform-independent build and otherwise the tag produced by the
platform table function. -/
theorem c7_wheel_filename :
    (∀ pkg : PipPackage, pkg.wheel_name none =
      some (pkg.python_package_name ++ "-" ++ pkg.package_version ++
        "-py3-none-any.whl")) ∧
    (∀ (pkg : PipPackage) (os : Os) (cpu : Cpu) (tag : String),
      platform_target_tag os cpu = some tag →
      pkg.wheel_name (some (os, cpu)) =
        some (pkg.python_package_name ++ "-" ++ pkg.package_version ++
          "-py3-none-" ++ tag ++ ".whl")) := by
  constructor
  · intro pkg
    have h := wheel_name_spec pkg none "any" rfl
    rw [h]
    refine congrArg some (strExt ?_)
    simp [String.data_append, List.append_assoc]
  · intro pkg os cpu tag h
    exact wheel_name_spec pkg (some (os, cpu)) tag h

/-- C7, witness: concrete wheel filename for a macOS x86-64 build. -/
theorem c7_wheel_filename_witness :
    PipPackage.wheel_name
        ⟨[], "my-ext", "my_ext", "1.2a3", []⟩ (some (Os.Macos, Cpu.X86_64)) =
      some "my_ext-1.2a3-py3-none-macosx_10_6_x86_64.whl" := by
  rw [c7_wheel_filename.2 ⟨[], "my-ext", "my_ext", "1.2a3", []⟩ Os.Macos
    Cpu.X86_64 "macosx_10_6_x86_64" rfl]
  decide

/-- C10: the three places a version and tag appear are mutually consistent:
the wheel filename interpolates python_package_name, package_version and the
resolved tag; the dist-info directory name interpolates the same
package_version; and the WHEEL metadata file's Tag line carries the same
resolved tag as the filename. -/
theorem c10_version_tag_consistency (pkg : PipPackage)
    (platform : Option (Os × Cpu)) (tag : String)
    (h : resolve_platform_tag platform = some tag) :
    pkg.wheel_name platform =
      some (pkg.python_package_name ++ "-" ++ pkg.package_version ++
        "-py3-none-" ++ tag ++ ".whl") ∧
    (∀ f : String, pkg.dist_info_file f =
      pkg.python_package_name ++ "-" ++ pkg.package_version ++
        ".dist-info/" ++ f) ∧
    templates.dist_info_wheel cargo_pkg_name cargo_pkg_version platform =
      some ("Wheel-Version: 1.0\nGenerator: " ++ cargo_pkg_name ++ " " ++
        cargo_pkg_version ++ "\nRoot-Is-Purelib: false\nTag: py3-none-" ++ tag) := by
  refine ⟨wheel_name_spec pkg platform tag h, fun f => rfl, ?_⟩
  rw [templates.dist_info_wheel, h, Option.map_some']
  refine congrArg some (strExt ?_)
  simp [String.data_append, List.append_assoc]

/-- C10, witness at the platform-independent tag "any". -/
theorem c10_version_tag_consistency_witness :
    PipPackage.wheel_name ⟨[], "my-ext", "my_ext", "1.2a3", []⟩ none =
      some ("my_ext" ++ "-" ++ "1.2a3" ++ "-py3-none-" ++ "any" ++ ".whl") ∧
    (∀ f : String,
      PipPackage.dist_info_file ⟨[], "my-ext", "my_ext", "1.2a3", []⟩ f =
        "my_ext" ++ "-" ++ "1.2a3" ++ ".dist-info/" ++ f) ∧
    templates.dist_info_wheel "sqlite-dist" "0.0.1" none =
      some ("Wheel-Version: 1.0\nGenerator: " ++ "sqlite-dist" ++ " " ++
        "0.0.1" ++ "\nRoot-Is-Purelib: false\nTag: py3-none-" ++ "any") :=
  c10_version_tag_consistency "sqlite-dist" "0.0.1"
    ⟨[], "my-ext", "my_ext", "1.2a3", []⟩ none "any" rfl

/-- C2: the generated wrapper initializers do not import the base package's
module — they import the wrapper package's own import name and call
load on it. For package name "hello-world" the base import name is
"hello_world", but the datasette wrapper's generated module reads
"import datasette_hello_world" and calls "datasette_hello_world.load(conn)"
(its own module, which defines no load function), and likewise the
sqlite-utils wrapper with "sqlite_utils_hello_world"; the hook body does
enable extension loading, call load, and disable it again, but the delegation
target is the wrapper itself, not the base package, contradicting the claim;
the surrounding code makes the spec's reading clearly the intent (a module
calling a load it never defines is useless), so this is a code bug. -/
theorem c2_wrapper_init_self_import :
    (write_datasette (fun _ => "") "sd" "0" "out"
          ⟨⟨"hello-world", Version.new 1 0 0⟩⟩).map
        (fun a => (a.kind, a.path, a.data.head?)) =
      some (GeneratedAssetKind.Datasette,
        "out/datasette_hello_world-1.0.0-py3-none-any.whl",
        some ("datasette_hello_world/__init__.py",
          strBytes "\nfrom datasette import hookimpl\nimport datasette_hello_world\n\n__version__ = \"1.0.0\"\n__version_info__ = tuple(__version__.split(\".\"))\n\n@hookimpl\ndef prepare_connection(conn):\n  conn.enable_load_extension(True)\n  datasette_hello_world.load(conn)\n  conn.enable_load_extension(False)\n")) ∧
    (write_sqlite_utils (fun _ => "") "sd" "0" "out"
          ⟨⟨"hello-world", Version.new 1 0 0⟩⟩).map
        (fun a => (a.kind, a.path, a.data.head?)) =
      some (GeneratedAssetKind.SqliteUtils,
        "out/sqlite_utils_hello_world-1.0.0-py3-none-any.whl",
        some ("sqlite_utils_hello_world/__init__.py",
          strBytes "\nfrom sqlite_utils import hookimpl\nimport sqlite_utils_hello_world\n\n__version__ = \"1.0.0\"\n__version_info__ = tuple(__version__.split(\".\"))\n\n@hookimpl\ndef prepare_connection(conn):\n  conn.enable_load_extension(True)\n  sqlite_utils_hello_world.load(conn)\n  conn.enable_load_extension(False)\n")) ∧
    dashToUnderscore "hello-world" = "hello_world" ∧
    "datasette_hello_world" ≠ "hello_world" ∧
    "sqlite_utils_hello_world" ≠ "hello_world" := by
  exact ⟨by decide, by decide, by decide, by decide, by decide⟩

/-- C9: whenever some target platform's loadable-file list is empty, the base
package assembler fails (the assert and expect panic, modelled as none) and
returns no assets at all — in particular no archive bytes for that wheel. -/
theorem c9_empty_payload_fails (pip_path : String)
    (dirs : List PlatformDirectory) (spec : Spec) (d : PlatformDirectory)
    (hd : d ∈ dirs) (he : d.loadable_files = []) :
    write_base_packages hashFn cargo_pkg_name cargo_pkg_version pip_path dirs
      spec = none := by
  induction dirs with
  | nil => cases hd
  | cons d0 rest ih =>
    rcases List.mem_cons.mp hd with rfl | hmem
    · rw [write_base_packages, he]
      simp
    · rw [write_base_packages, ih hmem]
      simp [option_bind_fun_none]

/-- C9, witness: one platform directory with an empty loadable-file list. -/
theorem c9_empty_payload_fails_witness :
    write_base_packages (fun _ => "") "sd" "0" "out"
      [⟨Os.Linux, Cpu.X86_64, []⟩] ⟨⟨"x", Version.new 1 0 0⟩⟩ = none :=
  c9_empty_payload_fails (fun _ => "") "sd" "0" "out"
    [⟨Os.Linux, Cpu.X86_64, []⟩] ⟨⟨"x", Version.new 1 0 0⟩⟩
    ⟨Os.Linux, Cpu.X86_64, []⟩ (List.mem_singleton.mpr rfl) rfl


lemma prefix_ne_empty {lit : String} (hlit : lit.data ≠ []) (s : String) :
    lit ++ s ≠ "" := by
  intro he
  have hd := congrArg String.data he
  rw [String.data_append] at hd
  exact hlit (List.append_eq_nil.mp hd).1

lemma kind_dot_split {k kd : String} (hkd : kd.data = k.data ++ '.' :: [])
    (hdot : '.' ∉ k.data) (s : String) :
    splitOnce '.' (kd ++ s).data = some (k.data, s.data) := by
  rw [String.data_append, hkd, List.append_assoc, List.cons_append,
    List.nil_append]
  exact splitOnce_append '.' _ _ hdot

lemma pre_decomp_kind {k kd : String} (hkd : kd.data = k.data ++ '.' :: [])
    (hk : '.' ∉ k.data) {pre : String} {p1 p2 : List Char}
    (hdecomp : pre.data = p1 ++ '.' :: p2) (hnotin : '.' ∉ p1)
    {n : String} (hcase : pre = kd ++ n) : p1 = k.data := by
  have hd := congrArg String.data hcase
  rw [String.data_append, hkd, List.append_assoc, List.cons_append,
    List.nil_append, hdecomp] at hd
  exact (split_at_char_unique hd hnotin hk).1

lemma pre_compose_kind {k kd : String} (hkd : kd.data = k.data ++ '.' :: [])
    {pre : String} {p1 p2 : List Char}
    (hdecomp : pre.data = p1 ++ '.' :: p2) (ha : String.mk p1 = k) :
    pre = kd ++ String.mk p2 := by
  apply strExt
  rw [hdecomp, String.data_append, hkd, List.append_assoc, List.cons_append,
    List.nil_append]
  have h1 : p1 = k.data := by rw [← ha]
  rw [h1]

lemma kind_prefix_has_dot {kd : String} {k : String}
    (hkd : kd.data = k.data ++ '.' :: []) {pre : String} {n : String}
    (hcase : pre = kd ++ n) : '.' ∈ pre.data := by
  rw [hcase, String.data_append, hkd]
  exact List.mem_append.mpr (Or.inl (List.mem_append.mpr (Or.inr (by decide))))

/-- C5: normalization fails (the modelled panic, none) exactly when the
version has both a pre-release identifier and build metadata, or a
pre-release identifier that is not of the form kind.rest with kind one of
alpha, beta, rc (which includes any identifier without a dot separator);
in particular it never silently coerces such inputs into a guessed value. -/
theorem c5_version_failure_iff (v : Version) :
    semver_to_pip_version v = none ↔
      (v.pre ≠ "" ∧ v.build ≠ "") ∨
      (v.pre ≠ "" ∧ ¬ ∃ n : String,
        v.pre = "alpha." ++ n ∨ v.pre = "beta." ++ n ∨ v.pre = "rc." ++ n) := by
  have halpha : ("alpha." : String).data = "alpha".data ++ '.' :: [] := by decide
  have hbeta : ("beta." : String).data = "beta".data ++ '.' :: [] := by decide
  have hrc : ("rc." : String).data = "rc".data ++ '.' :: [] := by decide
  by_cases hpre : v.pre = ""
  · refine iff_of_false ?_ ?_
    · by_cases hbuild : v.build = "" <;>
        simp [semver_to_pip_version, hpre, hbuild]
    · rintro (⟨hp, _⟩ | ⟨hp, _⟩) <;> exact hp hpre
  · by_cases hbuild : v.build = ""
    · cases hsp : splitOnce '.' v.pre.data with
      | none =>
        have hnotin := (splitOnce_eq_none_iff '.' v.pre.data).mp hsp
        have hne : ¬ ∃ n : String,
            v.pre = "alpha." ++ n ∨ v.pre = "beta." ++ n ∨
              v.pre = "rc." ++ n := by
          rintro ⟨n, hcase | hcase | hcase⟩
          · exact hnotin (kind_prefix_has_dot halpha hcase)
          · exact hnotin (kind_prefix_has_dot hbeta hcase)
          · exact hnotin (kind_prefix_has_dot hrc hcase)
        refine iff_of_true ?_ (Or.inr ⟨hpre, hne⟩)
        simp [semver_to_pip_version, hpre, hbuild, hsp]
      | some p =>
        obtain ⟨hdecomp, hnotin⟩ :=
          splitOnce_eq_some '.' v.pre.data p.1 p.2 (by rw [hsp])
        have hiff : (∃ n : String,
            v.pre = "alpha." ++ n ∨ v.pre = "beta." ++ n ∨
              v.pre = "rc." ++ n) ↔
            (String.mk p.1 = "alpha" ∨ String.mk p.1 = "beta" ∨
              String.mk p.1 = "rc") := by
          constructor
          · rintro ⟨n, hcase | hcase | hcase⟩
            · exact Or.inl (by
                rw [pre_decomp_kind halpha (by decide) hdecomp hnotin hcase])
            · exact Or.inr (Or.inl (by
                rw [pre_decomp_kind hbeta (by decide) hdecomp hnotin hcase]))
            · exact Or.inr (Or.inr (by
                rw [pre_decomp_kind hrc (by decide) hdecomp hnotin hcase]))
          · rintro (ha | ha | ha)
            · exact ⟨String.mk p.2, Or.inl (pre_compose_kind halpha hdecomp ha)⟩
            · exact ⟨String.mk p.2,
                Or.inr (Or.inl (pre_compose_kind hbeta hdecomp ha))⟩
            · exact ⟨String.mk p.2,
                Or.inr (Or.inr (pre_compose_kind hrc hdecomp ha))⟩
        by_cases ha : String.mk p.1 = "alpha"
        · refine iff_of_false ?_ ?_
          · simp [semver_to_pip_version, hpre, hbuild, hsp, ha]
          · rintro (⟨_, hb2⟩ | ⟨_, hne2⟩)
            · exact hb2 hbuild
            · exact hne2 (hiff.mpr (Or.inl ha))
        · by_cases hb : String.mk p.1 = "beta"
          · refine iff_of_false ?_ ?_
            · simp [semver_to_pip_version, hpre, hbuild, hsp, ha, hb]
            · rintro (⟨_, hb2⟩ | ⟨_, hne2⟩)
              · exact hb2 hbuild
              · exact hne2 (hiff.mpr (Or.inr (Or.inl hb)))
          · by_cases hc : String.mk p.1 = "rc"
            · refine iff_of_false ?_ ?_
              · simp [semver_to_pip_version, hpre, hbuild, hsp, ha, hb, hc]
              · rintro (⟨_, hb2⟩ | ⟨_, hne2⟩)
                · exact hb2 hbuild
                · exact hne2 (hiff.mpr (Or.inr (Or.inr hc)))
            · refine iff_of_true ?_ (Or.inr ⟨hpre, fun hex => ?_⟩)
              · simp [semver_to_pip_version, hpre, hbuild, hsp, ha, hb, hc]
              · rcases hiff.mp hex with h | h | h
                · exact ha h
                · exact hb h
                · exact hc h
    · refine iff_of_true ?_ (Or.inl ⟨hpre, hbuild⟩)
      simp [semver_to_pip_version, hpre, hbuild]

/-- C6: for versions without build metadata, normalization returns exactly
major.minor.patch when there is no pre-release identifier, and maps the
pre-release kinds alpha.N, beta.N, rc.N to the suffixes aN, bN, rcN. -/
theorem c6_version_success_cases :
    (∀ M m p : Nat, semver_to_pip_version ⟨M, m, p, "", ""⟩ =
      some (Nat.repr M ++ "." ++ Nat.repr m ++ "." ++ Nat.repr p)) ∧
    (∀ M m p n : Nat,
      semver_to_pip_version ⟨M, m, p, "alpha." ++ Nat.repr n, ""⟩ =
        some (Nat.repr M ++ "." ++ Nat.repr m ++ "." ++ Nat.repr p ++ "a" ++
          Nat.repr n)) ∧
    (∀ M m p n : Nat,
      semver_to_pip_version ⟨M, m, p, "beta." ++ Nat.repr n, ""⟩ =
        some (Nat.repr M ++ "." ++ Nat.repr m ++ "." ++ Nat.repr p ++ "b" ++
          Nat.repr n)) ∧
    (∀ M m p n : Nat,
      semver_to_pip_version ⟨M, m, p, "rc." ++ Nat.repr n, ""⟩ =
        some (Nat.repr M ++ "." ++ Nat.repr m ++ "." ++ Nat.repr p ++ "rc" ++
          Nat.repr n)) := by
  have halpha : ("alpha." : String).data = "alpha".data ++ '.' :: [] := by decide
  have hbeta : ("beta." : String).data = "beta".data ++ '.' :: [] := by decide
  have hrc : ("rc." : String).data = "rc".data ++ '.' :: [] := by decide
  have heta : ∀ s : String, String.mk s.data = s := fun s => rfl
  refine ⟨?_, ?_, ?_, ?_⟩
  · intro M m p
    refine congrArg some (strExt ?_)
    simp [semver_to_pip_version, Version.render, String.data_append]
  · intro M m p n
    have hpre : ("alpha." ++ Nat.repr n : String) ≠ "" :=
      prefix_ne_empty (by decide) _
    simp only [semver_to_pip_version, if_neg hpre, reduceIte,
      kind_dot_split halpha (by decide) (Nat.repr n), heta]
    refine congrArg some (strExt ?_)
    simp [Version.render, Version.new, String.data_append, List.append_assoc]
  · intro M m p n
    have hpre : ("beta." ++ Nat.repr n : String) ≠ "" :=
      prefix_ne_empty (by decide) _
    simp only [semver_to_pip_version, if_neg hpre, reduceIte,
      kind_dot_split hbeta (by decide) (Nat.repr n), heta]
    refine congrArg some (strExt ?_)
    simp [Version.render, Version.new, String.data_append, List.append_assoc]
  · intro M m p n
    have hpre : ("rc." ++ Nat.repr n : String) ≠ "" :=
      prefix_ne_empty (by decide) _
    simp only [semver_to_pip_version, if_neg hpre, reduceIte,
      kind_dot_split hrc (by decide) (Nat.repr n), heta]
    refine congrArg some (strExt ?_)
    simp [Version.render, Version.new, String.data_append, List.append_assoc]


/-- C8, counterexample: finalizing a fresh builder leaves the manifest
containing an entry for the RECORD file itself with a non-empty hash
(write_dist_info_record goes through write_file, which hashes RECORD into the
manifest), contradicting the claim that the RECORD file is never hashed into
the manifest at any point of the lifecycle. -/
theorem c8_record_hashed_counterexample :
    ((PipPackage.new "pkg" (Version.new 1 0 0)).bind
        (fun pkg => pkg.endState (fun _ => "HASH") "sd" "0" none)).map
      (fun st => st.written_files.any
        (fun f => f.path == "pkg-1.0.0.dist-info/RECORD" && f.hash != "")) =
      some true := by decide

/-- C8, amended: until finalization's RECORD step the manifest contains no
entry for the RECORD path (provided no payload was written at that path),
and the RECORD content is generated from exactly that RECORD-free manifest —
so the RECORD file is described in the finalization output only by the
unhashed self line; but the RECORD write itself then appends a hashed RECORD
entry to the manifest, which is never read afterwards. -/
theorem c8_manifest_record (pkg : PipPackage) (platform : Option (Os × Cpu))
    (tag : String) (h : resolve_platform_tag platform = some tag)
    (hp : ∀ f ∈ pkg.written_files, f.path ≠ pkg.dist_info_file "RECORD") :
    ∃ st, pkg.endState hashFn cargo_pkg_name cargo_pkg_version platform =
        some st ∧
      st.written_files =
        (pkg.written_files ++ [metadataEntry hashFn pkg,
          wheelEntry hashFn cargo_pkg_name cargo_pkg_version pkg tag,
          topLevelEntry hashFn pkg]) ++
        [recordEntry hashFn cargo_pkg_name cargo_pkg_version pkg tag] ∧
      (∀ f ∈ pkg.written_files ++ [metadataEntry hashFn pkg,
          wheelEntry hashFn cargo_pkg_name cargo_pkg_version pkg tag,
          topLevelEntry hashFn pkg],
        f.path ≠ pkg.dist_info_file "RECORD") ∧
      (recordEntry hashFn cargo_pkg_name cargo_pkg_version pkg tag).path =
        pkg.dist_info_file "RECORD" ∧
      recordEntry hashFn cargo_pkg_name cargo_pkg_version pkg tag =
        PipPackageFile.new hashFn (pkg.dist_info_file "RECORD")
          (strBytes (recordFileContent hashFn cargo_pkg_name cargo_pkg_version
            pkg tag)) ∧
      recordFileContent hashFn cargo_pkg_name cargo_pkg_version pkg tag =
        templates.dist_info_record_lines (pkg.written_files ++
            [metadataEntry hashFn pkg,
             wheelEntry hashFn cargo_pkg_name cargo_pkg_version pkg tag,
             topLevelEntry hashFn pkg]) ++
          pkg.dist_info_file "RECORD" ++ ",,\n" := by
  refine ⟨_, endState_eq hashFn cargo_pkg_name cargo_pkg_version pkg platform
    tag h, ?_, ?_, rfl, rfl, rfl⟩
  · simp [List.append_assoc]
  · intro f hf
    rcases List.mem_append.mp hf with hmem | hmem
    · exact hp f hmem
    · simp only [List.mem_cons, List.not_mem_nil, or_false] at hmem
      rcases hmem with rfl | rfl | rfl
      · exact dist_info_file_ne_of_length pkg (by decide)
      · exact dist_info_file_ne_of_length pkg (by decide)
      · exact dist_info_file_ne_of_length pkg (by decide)

/-- C8, witness for the amended theorem: fresh builder, platform-independent
tag. -/
theorem c8_manifest_record_witness :
    ∃ st, PipPackage.endState (fun _ => "HASH") "sd" "0"
        ⟨[], "pkg", "pkg", "1.0.0", []⟩ none = some st ∧
      st.written_files =
        (([] : List PipPackageFile) ++
          [metadataEntry (fun _ => "HASH") ⟨[], "pkg", "pkg", "1.0.0", []⟩,
           wheelEntry (fun _ => "HASH") "sd" "0"
             ⟨[], "pkg", "pkg", "1.0.0", []⟩ "any",
           topLevelEntry (fun _ => "HASH") ⟨[], "pkg", "pkg", "1.0.0", []⟩]) ++
        [recordEntry (fun _ => "HASH") "sd" "0"
          ⟨[], "pkg", "pkg", "1.0.0", []⟩ "any"] ∧
      (∀ f ∈ ([] : List PipPackageFile) ++
          [metadataEntry (fun _ => "HASH") ⟨[], "pkg", "pkg", "1.0.0", []⟩,
           wheelEntry (fun _ => "HASH") "sd" "0"
             ⟨[], "pkg", "pkg", "1.0.0", []⟩ "any",
           topLevelEntry (fun _ => "HASH") ⟨[], "pkg", "pkg", "1.0.0", []⟩],
        f.path ≠ PipPackage.dist_info_file ⟨[], "pkg", "pkg", "1.0.0", []⟩
          "RECORD") ∧
      (recordEntry (fun _ => "HASH") "sd" "0" ⟨[], "pkg", "pkg", "1.0.0", []⟩
          "any").path =
        PipPackage.dist_info_file ⟨[], "pkg", "pkg", "1.0.0", []⟩ "RECORD" ∧
      recordEntry (fun _ => "HASH") "sd" "0" ⟨[], "pkg", "pkg", "1.0.0", []⟩
          "any" =
        PipPackageFile.new (fun _ => "HASH")
          (PipPackage.dist_info_file ⟨[], "pkg", "pkg", "1.0.0", []⟩ "RECORD")
          (strBytes (recordFileContent (fun _ => "HASH") "sd" "0"
            ⟨[], "pkg", "pkg", "1.0.0", []⟩ "any")) ∧
      recordFileContent (fun _ => "HASH") "sd" "0"
          ⟨[], "pkg", "pkg", "1.0.0", []⟩ "any" =
        templates.dist_info_record_lines (([] : List PipPackageFile) ++
            [metadataEntry (fun _ => "HASH") ⟨[], "pkg", "pkg", "1.0.0", []⟩,
             wheelEntry (fun _ => "HASH") "sd" "0"
               ⟨[], "pkg", "pkg", "1.0.0", []⟩ "any",
             topLevelEntry (fun _ => "HASH") ⟨[], "pkg", "pkg", "1.0.0", []⟩]) ++
          PipPackage.dist_info_file ⟨[], "pkg", "pkg", "1.0.0", []⟩ "RECORD" ++
          ",,\n" :=
  c8_manifest_record (fun _ => "HASH") "sd" "0"
    ⟨[], "pkg", "pkg", "1.0.0", []⟩ none "any" rfl (by simp)

/-- C1, counterexample: a fresh builder with zero payload files, finalized
platform-independently, produces a RECORD whose content has 4 newline-
terminated lines (METADATA, WHEEL, top_level.txt entries plus the
self-referential line), not the 0 + 1 lines the claim states. -/
theorem c1_record_line_count_counterexample :
    (((PipPackage.new "pkg" (Version.new 1 0 0)).bind
        (fun pkg => pkg.finalize (fun _ => "HASH") "sd" "0" none)).bind
      (fun members => members.getLast?)).map (fun m => m.2.count 10) =
      some 4 ∧ (4 : Nat) ≠ 0 + 1 := by
  exact ⟨by decide, by decide⟩

/-- C1, amended: after writing N payload files on a fresh builder and
finalizing, the produced RECORD (the last archive member, stored at the
dist-info RECORD path) contains exactly N+4 newline-terminated lines: one
line per payload of the form path,sha256=hash,size with the hash of that
payload's bytes and its byte length, then one such line for each of
METADATA, WHEEL and top_level.txt (written by finalization before RECORD),
then the self-referential line record_path,, with empty hash and size
fields. -/
theorem c1_record_lines (pkg : PipPackage) (payloads : List (String × List Nat))
    (platform : Option (Os × Cpu)) (tag : String)
    (h : resolve_platform_tag platform = some tag)
    (hw : pkg.written_files = [])
    (hhash : ∀ bs : List Nat, '\n' ∉ (hashFn bs).data)
    (hpy : '\n' ∉ pkg.python_package_name.data)
    (hver : '\n' ∉ pkg.package_version.data)
    (hpaths : ∀ pd ∈ payloads, '\n' ∉ pd.1.data) :
    ∃ members,
      (write_payloads hashFn pkg payloads).finalize hashFn cargo_pkg_name
        cargo_pkg_version platform = some members ∧
      members.getLast? = some (pkg.dist_info_file "RECORD",
        strBytes (recordFileContent hashFn cargo_pkg_name cargo_pkg_version
          (write_payloads hashFn pkg payloads) tag)) ∧
      recordFileContent hashFn cargo_pkg_name cargo_pkg_version
          (write_payloads hashFn pkg payloads) tag =
        templates.dist_info_record_lines
            (payloads.map (fun pd => PipPackageFile.new hashFn pd.1 pd.2) ++
              [metadataEntry hashFn (write_payloads hashFn pkg payloads),
               wheelEntry hashFn cargo_pkg_name cargo_pkg_version
                 (write_payloads hashFn pkg payloads) tag,
               topLevelEntry hashFn (write_payloads hashFn pkg payloads)]) ++
          pkg.dist_info_file "RECORD" ++ ",,\n" ∧
      countNewlines (recordFileContent hashFn cargo_pkg_name cargo_pkg_version
          (write_payloads hashFn pkg payloads) tag) =
        payloads.length + 4 := by
  have hPpy : '\n' ∉ (write_payloads hashFn pkg payloads).python_package_name.data := by
    rw [write_payloads_python_package_name]
    exact hpy
  have hPver : '\n' ∉ (write_payloads hashFn pkg payloads).package_version.data := by
    rw [write_payloads_package_version]
    exact hver
  have hP_dist := write_payloads_dist_info_file hashFn pkg payloads
  have hcond : ∀ f ∈ (write_payloads hashFn pkg payloads).written_files ++
      [metadataEntry hashFn (write_payloads hashFn pkg payloads),
       wheelEntry hashFn cargo_pkg_name cargo_pkg_version
         (write_payloads hashFn pkg payloads) tag,
       topLevelEntry hashFn (write_payloads hashFn pkg payloads)],
      '\n' ∉ f.path.data ∧ '\n' ∉ f.hash.data := by
    intro f hf
    rcases List.mem_append.mp hf with hmem | hmem
    · rw [write_payloads_written_files, hw, List.nil_append] at hmem
      obtain ⟨pd, hpd, rfl⟩ := List.mem_map.mp hmem
      exact ⟨hpaths pd hpd, hhash pd.2⟩
    · simp only [List.mem_cons, List.not_mem_nil, or_false] at hmem
      rcases hmem with rfl | rfl | rfl
      · exact ⟨dist_info_file_no_newline _ _ hPpy hPver (by decide), hhash _⟩
      · exact ⟨dist_info_file_no_newline _ _ hPpy hPver (by decide), hhash _⟩
      · exact ⟨dist_info_file_no_newline _ _ hPpy hPver (by decide), hhash _⟩
  refine ⟨_, finalize_eq hashFn cargo_pkg_name cargo_pkg_version
    (write_payloads hashFn pkg payloads) platform tag h, ?_, ?_, ?_⟩
  · rw [show ∀ (x : List (String × List Nat)) (A B C D : String × List Nat),
        x ++ [A, B, C, D] = (x ++ [A, B, C]) ++ [D] from fun x A B C D => by
          simp, List.getLast?_concat, hP_dist]
  · rw [recordFileContent, write_payloads_written_files, hw, List.nil_append,
      hP_dist]
  · rw [recordFileContent, countNewlines_append, countNewlines_append,
      countNewlines_record_lines _ hcond,
      countNewlines_eq_zero (dist_info_file_no_newline _ _ hPpy hPver
        (by decide)),
      show countNewlines ",,\n" = 1 from rfl,
      write_payloads_written_files, hw, List.nil_append]
    simp [List.length_append, List.length_map]

/-- C1, witness for the amended theorem: one payload file on a fresh builder,
platform-independent finalization. -/
theorem c1_record_lines_witness :
    ∃ members,
      (write_payloads (fun _ => "HASH") ⟨[], "my-ext", "my_ext", "1.2a3", []⟩
          [("my_ext/ext.so", [0, 1, 2])]).finalize (fun _ => "HASH") "sd" "0"
        none = some members ∧
      members.getLast? = some (PipPackage.dist_info_file
          ⟨[], "my-ext", "my_ext", "1.2a3", []⟩ "RECORD",
        strBytes (recordFileContent (fun _ => "HASH") "sd" "0"
          (write_payloads (fun _ => "HASH") ⟨[], "my-ext", "my_ext", "1.2a3", []⟩
            [("my_ext/ext.so", [0, 1, 2])]) "any")) ∧
      recordFileContent (fun _ => "HASH") "sd" "0"
          (write_payloads (fun _ => "HASH") ⟨[], "my-ext", "my_ext", "1.2a3", []⟩
            [("my_ext/ext.so", [0, 1, 2])]) "any" =
        templates.dist_info_record_lines
            ([("my_ext/ext.so", ([0, 1, 2] : List Nat))].map
              (fun pd => PipPackageFile.new (fun _ => "HASH") pd.1 pd.2) ++
              [metadataEntry (fun _ => "HASH")
                 (write_payloads (fun _ => "HASH")
                   ⟨[], "my-ext", "my_ext", "1.2a3", []⟩
                   [("my_ext/ext.so", [0, 1, 2])]),
               wheelEntry (fun _ => "HASH") "sd" "0"
                 (write_payloads (fun _ => "HASH")
                   ⟨[], "my-ext", "my_ext", "1.2a3", []⟩
                   [("my_ext/ext.so", [0, 1, 2])]) "any",
               topLevelEntry (fun _ => "HASH")
                 (write_payloads (fun _ => "HASH")
                   ⟨[], "my-ext", "my_ext", "1.2a3", []⟩
                   [("my_ext/ext.so", [0, 1, 2])])]) ++
          PipPackage.dist_info_file ⟨[], "my-ext", "my_ext", "1.2a3", []⟩
            "RECORD" ++ ",,\n" ∧
      countNewlines (recordFileContent (fun _ => "HASH") "sd" "0"
          (write_payloads (fun _ => "HASH") ⟨[], "my-ext", "my_ext", "1.2a3", []⟩
            [("my_ext/ext.so", [0, 1, 2])]) "any") =
        [("my_ext/ext.so", ([0, 1, 2] : List Nat))].length + 4 :=
  c1_record_lines (fun _ => "HASH") "sd" "0"
    ⟨[], "my-ext", "my_ext", "1.2a3", []⟩ [("my_ext/ext.so", [0, 1, 2])] none
    "any" rfl rfl
    (fun _ => by show '\n' ∉ ("HASH" : String).data; decide)
    (by decide) (by decide) (by decide)

end SqliteDist
